import Mathlib

set_option linter.unreachableTactic false
set_option linter.unnecessarySeqFocus false
set_option linter.unusedTactic false

/-!
Verification of the safe-destructive-operation workflows of the interactive
git helper (src/GITCHEAT.py): the safe branch-delete workflow, the safe
staging-to-main promote workflow, the confirmation gates and the backup
tagger.

The embedding is shallow: the external git tool is an oracle
(`GitEnv.runGit`) mapping an argument list to a captured result, the
operator is an oracle (`Nat → String`) giving the reply to the n-th
`input()` call, and each workflow is a pure function producing the ordered
trace of observable actions (git commands issued, audit-log writes,
printed output, confirmation prompts).  Read-only repository queries
(`list_local_branches`, `is_merged_into`, ...) are translated as pure
functions of the environment; the commands the workflow bodies issue
directly are recorded in the trace.
-/

namespace GitCheat

/-! ## Python string primitives (`str.strip`, `str.lower`, `str.split`, `str.splitlines`) -/

/-- Characters treated as whitespace by Python's `str.strip()` / `str.split()`. -/
def isPySpace (c : Char) : Bool :=
  c == ' ' || c == '\t' || c == '\n' || c == '\r' || c == Char.ofNat 11 || c == Char.ofNat 12

def dropLeadingSpace : List Char → List Char
  | [] => []
  | c :: cs => if isPySpace c then dropLeadingSpace cs else c :: cs

/-- Python `s.strip()`: remove leading and trailing whitespace. -/
def pyStrip (s : String) : String :=
  ⟨dropLeadingSpace (dropLeadingSpace s.data.reverse).reverse⟩

/-- Python `s.lower()` (ASCII letters; the program only compares against "y"). -/
def pyLower (s : String) : String :=
  ⟨s.data.map (fun c => if 'A' ≤ c && c ≤ 'Z' then Char.ofNat (c.toNat + 32) else c)⟩

/-- Split a character list at every character satisfying `p`, keeping empty pieces. -/
def splitOnPred (p : Char → Bool) : List Char → List (List Char)
  | [] => [[]]
  | c :: cs =>
    let r := splitOnPred p cs
    if p c then [] :: r
    else
      match r with
      | [] => [[c]]
      | h :: t => (c :: h) :: t

/-- Python `s.splitlines()` (modelled as splitting at newline characters). -/
def pySplitLines (s : String) : List String :=
  (splitOnPred (· == '\n') s.data).map fun l => ⟨l⟩

/-- Python `s.split()`: split on whitespace runs, dropping empty pieces. -/
def pySplitWs (s : String) : List String :=
  ((splitOnPred isPySpace s.data).filter (· ≠ [])).map fun l => ⟨l⟩

/-- `dropPrefixChars p l` is `some rest` iff `l = p ++ rest`
(Python `s.startswith(p)` followed by `s[len(p):]`). -/
def dropPrefixChars : List Char → List Char → Option (List Char)
  | [], l => some l
  | _ :: _, [] => none
  | p :: ps, c :: cs => if p == c then dropPrefixChars ps cs else none

/-! ## The external git tool and the clock -/

/-- The result of one invocation of the external git tool
(`subprocess.CompletedProcess`: return code, captured stdout and stderr). -/
structure GitResult where
  exitCode : Nat
  stdout : String
  stderr : String
deriving Repr, DecidableEq

/-- A UTC wall-clock instant, as used by `datetime.utcnow()`. -/
structure UTCTime where
  year : Nat
  month : Nat
  day : Nat
  hour : Nat
  minute : Nat
  second : Nat
deriving Repr, DecidableEq

def pad2 (n : Nat) : String := if n < 10 then "0" ++ toString n else toString n

def pad4 (n : Nat) : String :=
  if n < 10 then "000" ++ toString n
  else if n < 100 then "00" ++ toString n
  else if n < 1000 then "0" ++ toString n
  else toString n

/-- `strftime("%Y%m%dT%H%M%SZ")`: the compact UTC timestamp with second precision. -/
def compactTimestamp (t : UTCTime) : String :=
  pad4 t.year ++ pad2 t.month ++ pad2 t.day ++ "T" ++
    pad2 t.hour ++ pad2 t.minute ++ pad2 t.second ++ "Z"

/-- The environment a workflow run observes: the git oracle (one fixed result
per argument list, the repository being queried fresh on every call) and the
current UTC time (the workflows only read it for the backup tag name). -/
structure GitEnv where
  runGit : List String → GitResult
  now : UTCTime

/-! ## Observable events and interaction state -/

/-- One observable action of a workflow run. -/
inductive Event where
  /-- A git command was issued through `run_git` from a workflow body. -/
  | run (args : List String)
  /-- A line was printed to the operator. -/
  | out (s : String)
  /-- A low-tier yes/no confirmation was prompted (`confirm`). -/
  | askYN (prompt : String)
  /-- An exact-text confirmation was prompted (`typed_confirm`). -/
  | askTyped (prompt : String)
  /-- A line was appended to the audit log (`log_action`). -/
  | log (msg : String)
deriving Repr, DecidableEq

/-- Interaction state threaded through a workflow: the operator-input oracle,
the index of the next `input()` call, and the event trace so far. -/
structure S where
  oracle : Nat → String
  idx : Nat
  trace : List Event

def S.emit (s : S) (e : Event) : S := { s with trace := s.trace ++ [e] }

/-- One `input()` call: read the next operator reply. -/
def S.read (s : S) : String × S := (s.oracle s.idx, { s with idx := s.idx + 1 })

/-! ## Confirmation gates (source lines 37–45) -/

/-- `confirm(prompt)`: low-tier yes/no gate; affirmative iff the stripped,
lowercased reply is exactly `"y"`. -/
def confirm (prompt : String) (s : S) : Bool × S :=
  let s1 := s.emit (.askYN prompt)
  let (r, s2) := s1.read
  (pyLower (pyStrip r) == "y", s2)

/-- `typed_confirm(prompt, expected)`: elevated gate; succeeds iff the stripped
reply is exactly the expected string (case-sensitive). -/
def typed_confirm (prompt expected : String) (s : S) : Bool × S :=
  let s1 := s.emit (.out prompt)
  let s2 := s1.emit (.askTyped "Type the exact text to confirm: ")
  let (typed, s3) := s2.read
  (pyStrip typed == expected, s3)

/-! ## Executor wrappers and audit logger -/

/-- `run_git(args)` as a pure query (read-only inspector use). -/
def run_git (env : GitEnv) (args : List String) : GitResult := env.runGit args

/-- `run_git(args)` as issued from a workflow body: recorded in the trace. -/
def run_gitE (env : GitEnv) (args : List String) (s : S) : GitResult × S :=
  (env.runGit args, s.emit (.run args))

/-- `print_run_git(args)`: run a git command and surface its output. -/
def print_run_git (env : GitEnv) (args : List String) (s : S) : GitResult × S :=
  let cp := env.runGit args
  let s1 := s.emit (.run args)
  let s2 := if cp.stdout == "" then s1 else s1.emit (.out (pyStrip cp.stdout))
  let s3 :=
    if cp.exitCode != 0 && cp.stderr != "" then
      s2.emit (.out ("git error: " ++ pyStrip cp.stderr))
    else s2
  (cp, s3)

/-- `log_action(repo_root, msg)`: append one line to the audit log
(a no-op when the repository root could not be resolved). -/
def log_action (repo_root : Option String) (msg : String) (s : S) : S :=
  match repo_root with
  | none => s
  | some _ => s.emit (.log msg)

/-! ## Repository inspector (source lines 47–138, read-only) -/

def PROTECTED_BRANCHES : List String :=
  ["main", "master", "develop", "production", "prod", "staging", "release"]

def check_git_repo (env : GitEnv) : Bool :=
  (run_git env ["rev-parse", "--is-inside-work-tree"]).exitCode == 0

def get_repo_root (env : GitEnv) : Option String :=
  let cp := run_git env ["rev-parse", "--show-toplevel"]
  if cp.exitCode != 0 then none else some (pyStrip cp.stdout)

def get_current_branch (env : GitEnv) : Option String :=
  let cp := run_git env ["rev-parse", "--abbrev-ref", "HEAD"]
  if cp.exitCode != 0 then none else some (pyStrip cp.stdout)

def list_local_branches (env : GitEnv) : List String :=
  let cp := run_git env ["branch", "--format=%(refname:short)"]
  if cp.exitCode != 0 then []
  else ((pySplitLines cp.stdout).map pyStrip).filter (· ≠ "")

/-- Parse `git ls-remote --heads` output: second whitespace-separated field of
each line, with the `refs/heads/` prefix removed. -/
def parse_ls_remote (out : String) : List String :=
  (pySplitLines out).filterMap fun line =>
    match pySplitWs line with
    | _ :: ref :: _ =>
      match dropPrefixChars "refs/heads/".data ref.data with
      | some rest => some ⟨rest⟩
      | none => none
    | _ => none

def list_remote_branches (env : GitEnv) (remote : String) : List String :=
  let cp := run_git env ["ls-remote", "--heads", remote]
  if cp.exitCode != 0 then [] else parse_ls_remote cp.stdout

def branch_exists_local (env : GitEnv) (branch : String) : Bool :=
  (list_local_branches env).contains branch

def branch_exists_remote (env : GitEnv) (branch remote : String) : Bool :=
  (list_remote_branches env remote).contains branch

/-- `choose_primary_branch()`: prefer develop, then main, then master, else the
first local branch, else none. -/
def choose_primary_branch (env : GitEnv) : Option String :=
  let locals_ := list_local_branches env
  if locals_.contains "develop" then some "develop"
  else if locals_.contains "main" then some "main"
  else if locals_.contains "master" then some "master"
  else locals_.head?

/-- `is_merged_into(source, target)`: `git merge-base --is-ancestor` succeeded. -/
def is_merged_into (env : GitEnv) (source target : String) : Bool :=
  (run_git env ["merge-base", "--is-ancestor", source, target]).exitCode == 0

/-- `show_commits_unique(source, target)`: the `target..source` one-line log. -/
def show_commits_unique (env : GitEnv) (source target : String) : String :=
  let cp := run_git env ["log", "--oneline", target ++ ".." ++ source]
  if cp.exitCode != 0 then pyStrip cp.stderr
  else if pyStrip cp.stdout == "" then "(no unique commits)" else pyStrip cp.stdout

/-- `is_working_tree_clean()`: `git status --porcelain` succeeded with empty
output; a failed status query is conservatively "not clean". -/
def is_working_tree_clean (env : GitEnv) : Bool :=
  let cp := run_git env ["status", "--porcelain"]
  if cp.exitCode != 0 then false else pyStrip cp.stdout == ""

/-- The configured remote names (`git remote`, source lines 319–320). -/
def remote_names (env : GitEnv) : List String :=
  let cp := run_git env ["remote"]
  if cp.exitCode == 0 then pySplitWs cp.stdout else []

/-! ## Backup tagger (source lines 114–131) -/

/-- The tag name composed by `create_backup_tag`:
`backup/<branch>/<compact UTC timestamp>`. -/
def create_backup_tag_name (branch : String) (t : UTCTime) : String :=
  "backup/" ++ branch ++ "/" ++ compactTimestamp t

/-- `create_backup_tag(branch, repo_root)`: create the timestamped tag, log it,
and optionally publish it to origin after a low-tier confirmation. -/
def create_backup_tag (env : GitEnv) (branch : String) (repo_root : Option String)
    (s : S) : Option String × S :=
  let safe_tag := create_backup_tag_name branch env.now
  let (cp, s1) := run_gitE env ["tag", safe_tag, branch] s
  if cp.exitCode != 0 then
    (none, s1.emit (.out ("Failed to create tag " ++ safe_tag ++ ": " ++ pyStrip cp.stderr)))
  else
    let s2 := s1.emit (.out ("Created backup tag: " ++ safe_tag))
    let s3 := log_action repo_root ("Created backup tag " ++ safe_tag ++ " for branch " ++ branch) s2
    let s4 :=
      if branch_exists_remote env branch "origin" then
        let (ok, s4a) := confirm "Push the backup tag to 'origin'?" s3
        if ok then
          let (cp2, s4b) := run_gitE env ["push", "origin", safe_tag] s4a
          if cp2.exitCode == 0 then
            let s4c := s4b.emit (.out ("Pushed tag " ++ safe_tag ++ " to origin"))
            log_action repo_root ("Pushed tag " ++ safe_tag ++ " to origin") s4c
          else s4b.emit (.out ("Failed to push tag: " ++ pyStrip cp2.stderr))
        else s4a
      else s3
    (some safe_tag, s4)

/-! ## Safe delete workflow (source lines 236–341) -/

/-- Merged ("safe") local delete: one low-tier confirmation, then `branch -d`
(source lines 282–290). -/
def merged_delete (env : GitEnv) (repo_root : Option String) (branch primary : String)
    (s : S) : S :=
  let s1 := s.emit (.out ("Branch '" ++ branch ++ "' appears merged into '" ++ primary ++
    "'. Safe to delete locally."))
  let (ok, s2) := confirm ("Delete local branch '" ++ branch ++ "'?") s1
  if ok then
    let (cp, s3) := run_gitE env ["branch", "-d", branch] s2
    if cp.exitCode == 0 then
      let s4 := s3.emit (.out ("Deleted local branch '" ++ branch ++ "'."))
      log_action repo_root ("Deleted local branch " ++ branch) s4
    else s3.emit (.out ("Failed to delete locally: " ++ pyStrip cp.stderr))
  else s2

/-- Unmerged (or undeterminable-primary) local delete: show unique commits,
offer a backup tag, then require the exact branch name before `branch -D`
(source lines 291–314). -/
def unmerged_delete (env : GitEnv) (repo_root : Option String) (branch : String)
    (primary : Option String) (s : S) : S :=
  let s1 :=
    match primary with
    | some p => s.emit (.out ("Branch '" ++ branch ++ "' does NOT appear merged into '" ++ p ++ "'."))
    | none => s.emit (.out "Could not determine a primary branch to check merge status.")
  let commits := show_commits_unique env branch (primary.getD "HEAD")
  let s2 := s1.emit (.out "\nCommits that are unique to the branch (would be lost):")
  let s3 := s2.emit (.out commits)
  let (wantBackup, s4) := confirm "Create a backup tag for this branch before deleting?" s3
  let s5 :=
    if wantBackup then
      let (tag, s5a) := create_backup_tag env branch repo_root s4
      match tag with
      | some t => s5a.emit (.out ("Backup tag created: " ++ t))
      | none => s5a
    else s4
  let s6 := s5.emit (.out "To force-delete this unmerged local branch, you must type the exact branch name.")
  let (ok, s7) := typed_confirm "Force-delete confirmation" branch s6
  if ok then
    let (cp, s8) := run_gitE env ["branch", "-D", branch] s7
    if cp.exitCode == 0 then
      let s9 := s8.emit (.out ("Force-deleted local branch '" ++ branch ++ "'."))
      log_action repo_root ("Force-deleted local branch " ++ branch) s9
    else s8.emit (.out ("Failed to force-delete: " ++ pyStrip cp.stderr))
  else s7.emit (.out "Aborted local deletion.")

/-- Merge-safety dispatch of the local path (source lines 281–314). -/
def merge_part (env : GitEnv) (repo_root : Option String) (branch : String) (s : S) : S :=
  match choose_primary_branch env with
  | some p =>
    if is_merged_into env branch p then merged_delete env repo_root branch p s
    else unmerged_delete env repo_root branch (some p) s
  | none => unmerged_delete env repo_root branch none s

/-- The local delete path (source lines 265–314).  The returned flag is `false`
exactly when the operator declined to switch off the target branch, which in
the source is a `return` from the whole function. -/
def local_flow (env : GitEnv) (repo_root : Option String) (current : Option String)
    (branch : String) (s : S) : S × Bool :=
  if !branch_exists_local env branch then
    (s.emit (.out ("Local branch '" ++ branch ++ "' not found.")), true)
  else if current == some branch then
    let s1 := s.emit (.out "You are currently on the branch you want to delete.")
    let safe_target := choose_primary_branch env
    let s2 :=
      match safe_target with
      | some t => s1.emit (.out ("Suggested safe branch to switch to: " ++ t))
      | none => s1
    let (ok, s3) := confirm "Switch to the suggested safe branch and continue?" s2
    if ok then
      -- `safe_target` cannot be `none` here: the target branch exists locally, so the
      -- local branch list is nonempty; on `none` CPython would raise in subprocess.
      let (_, s4) := print_run_git env ["checkout", safe_target.getD ""] s3
      (merge_part env repo_root branch s4, true)
    else
      (s3.emit (.out "Abort: please checkout a different branch before deleting."), false)
  else (merge_part env repo_root branch s, true)

/-- The remote delete path (source lines 317–341). -/
def remote_flow (env : GitEnv) (repo_root : Option String) (branch : String) (s : S) : S :=
  let (cp_rem, s1) := run_gitE env ["remote"] s
  let remotes := if cp_rem.exitCode == 0 then pySplitWs cp_rem.stdout else []
  if !remotes.contains "origin" then
    s1.emit (.out "Remote 'origin' not configured; cannot delete remote branch.")
  else
    let step2 : S → S := fun s2 =>
      let s3 := s2.emit (.out "To delete the remote branch, type the exact branch name to confirm.")
      let (ok, s4) := typed_confirm "Remote-delete confirmation" branch s3
      if !ok then s4.emit (.out "Aborted remote deletion.")
      else
        let (cp, s5) := run_gitE env ["push", "origin", "--delete", branch] s4
        if cp.exitCode == 0 then
          let s6 := s5.emit (.out ("Deleted remote branch 'origin/" ++ branch ++ "'."))
          log_action repo_root ("Deleted remote branch origin/" ++ branch) s6
        else s5.emit (.out ("Failed to delete remote branch: " ++ pyStrip cp.stderr))
    if !branch_exists_remote env branch "origin" then
      let s2 := s1.emit (.out ("Remote branch 'origin/" ++ branch ++ "' not found."))
      let (still, s3) := confirm "Do you still want to attempt remote deletion?" s2
      if still then step2 s3 else s3
    else step2 s1

/-- `delete_branch()`: the safe delete workflow (source lines 236–341).
Operator replies, in order: scope choice, branch name, then the inputs of
whatever gates the chosen path reaches. -/
def delete_branch (env : GitEnv) (inputs : Nat → String) : S :=
  let s : S := ⟨inputs, 0, []⟩
  if !check_git_repo env then s.emit (.out "Not inside a Git repository. Run setup first.")
  else
    let repo_root := get_repo_root env
    let current := get_current_branch env
    let s1 := s.emit (.out ("Current branch: " ++ current.getD "None"))
    let s2 := s1.emit (.out "Delete branch options: 1) local 2) remote 3) both")
    let (choiceRaw, s3) := s2.read
    let choice := pyStrip choiceRaw
    if !(choice == "1" || choice == "2" || choice == "3") then s3.emit (.out "Invalid choice.")
    else
      let (branchRaw, s4) := s3.read
      let branch := pyStrip branchRaw
      if branch == "" then s4.emit (.out "Branch name cannot be empty.")
      else
        let (gateOk, s5) :=
          if PROTECTED_BRANCHES.contains branch then
            let s5a := s4.emit (.out ("'" ++ branch ++ "' is a protected branch by default."))
            let s5b := s5a.emit (.out ("To proceed you must type exactly: DELETE " ++ branch))
            let (ok, s5c) := typed_confirm "Protected-branch deletion confirmation"
              ("DELETE " ++ branch) s5b
            if ok then (true, s5c)
            else (false, s5c.emit (.out "Aborted protected-branch deletion."))
          else (true, s4)
        if !gateOk then s5
        else
          let (s6, cont) :=
            if choice == "1" || choice == "3" then local_flow env repo_root current branch s5
            else (s5, true)
          if !cont then s6
          else if choice == "2" || choice == "3" then remote_flow env repo_root branch s6
          else s6

/-! ## Safe promote workflow (source lines 344–424) -/

/-- The main reference chosen at source line 392: prefer `main` (locally or on
origin) over `master`. -/
def promote_chosen_main (env : GitEnv) : String :=
  if branch_exists_local env "main" || branch_exists_remote env "main" "origin" then "main"
  else "master"

/-- Source lines 388–394: check out and pull `staging`, then the chosen main. -/
def promote_pulls (env : GitEnv) (s : S) : S :=
  let s1 := (print_run_git env ["checkout", "staging"] s).2
  let s2 := (print_run_git env ["pull", "origin", "staging"] s1).2
  let s3 := (print_run_git env ["checkout", promote_chosen_main env] s2).2
  (print_run_git env ["pull", "origin", promote_chosen_main env] s3).2

/-- Source lines 396–400: offer an optional backup tag on the chosen main. -/
def promote_backup_offer (env : GitEnv) (repo_root : Option String) (s : S) : S :=
  let c := confirm ("Create a backup tag for '" ++ promote_chosen_main env ++ "' before merging?") s
  if c.1 then
    let r := create_backup_tag env (promote_chosen_main env) repo_root c.2
    match r.1 with
    | some t => r.2.emit (.out ("Backup tag created: " ++ t))
    | none => r.2
  else c.2

/-- Source lines 402–424: the fixed-phrase final gate, the merge of staging and,
only on a clean merge, the push of the chosen main. -/
def promote_merge_push (env : GitEnv) (repo_root : Option String) (s : S) : S :=
  let s7 := s.emit (.out ("This will merge 'staging' into '" ++ promote_chosen_main env ++
    "' and push to origin."))
  let s8 := s7.emit (.out "To confirm, type exactly: PUSH STAGING TO MAIN")
  let g := typed_confirm "Final confirmation" "PUSH STAGING TO MAIN" s8
  if !g.1 then g.2.emit (.out "Aborted push staging->main.")
  else
    let m := run_gitE env ["merge", "staging"] g.2
    if m.1.exitCode != 0 then
      let s11 := m.2.emit (.out "Merge failed or produced conflicts. Resolve manually, then push. Aborting push.")
      if m.1.stderr == "" then s11 else s11.emit (.out (pyStrip m.1.stderr))
    else
      let p := run_gitE env ["push", "origin", promote_chosen_main env] m.2
      if p.1.exitCode == 0 then
        let s12 := p.2.emit (.out ("Successfully pushed '" ++ promote_chosen_main env ++ "' to origin."))
        log_action repo_root ("Merged staging into " ++ promote_chosen_main env ++
          " and pushed to origin") s12
      else p.2.emit (.out ("Failed to push " ++ promote_chosen_main env ++ ": " ++ pyStrip p.1.stderr))

/-- Sync, optional backup, final gate, merge and push (source lines 388–424). -/
def promote_sync (env : GitEnv) (repo_root : Option String) (s : S) : S :=
  promote_merge_push env repo_root (promote_backup_offer env repo_root (promote_pulls env s))

/-- Availability checks and the working-tree cleanliness gate
(source lines 374–386). -/
def promote_check (env : GitEnv) (repo_root : Option String)
    (staging_local main_local staging_remote main_remote : Bool) (s : S) : S :=
  if !(staging_local || staging_remote) then
    s.emit (.out "No staging branch found locally or on origin. Aborting.")
  else if !(main_local || main_remote) then
    s.emit (.out "No main/master branch found locally or on origin. Aborting.")
  else if !is_working_tree_clean env then
    let s1 := s.emit (.out "Working tree is not clean. Please commit or stash changes before deploying to main.")
    let (ok, s2) := confirm "Proceed despite uncommitted changes?" s1
    if !ok then s2.emit (.out "Aborted due to dirty working tree.")
    else promote_sync env repo_root s2
  else promote_sync env repo_root s

/-- Offer to create a local tracking branch for main/master
(source lines 364–372). -/
def promote_resolve_main (env : GitEnv) (repo_root : Option String)
    (staging_local main_local staging_remote main_remote : Bool) (s : S) : S :=
  if !main_local && main_remote then
    let remote_main := if branch_exists_remote env "main" "origin" then "main" else "master"
    let (ok, s1) := confirm ("Local main/master not found. Create tracking branch from origin/" ++
      remote_main ++ "?") s
    if ok then
      let (cp, s2) := run_gitE env ["checkout", "-b", remote_main, "origin/" ++ remote_main] s1
      if cp.exitCode != 0 then
        s2.emit (.out ("Failed to create local " ++ remote_main ++ " from origin/" ++ remote_main ++ "."))
      else promote_check env repo_root staging_local true staging_remote main_remote s2
    else promote_check env repo_root staging_local main_local staging_remote main_remote s1
  else promote_check env repo_root staging_local main_local staging_remote main_remote s

/-- `push_staging_to_main()`: the safe promote workflow (source lines 344–424). -/
def push_staging_to_main (env : GitEnv) (inputs : Nat → String) : S :=
  let s : S := ⟨inputs, 0, []⟩
  if !check_git_repo env then s.emit (.out "Not inside a Git repository. Run setup first.")
  else
    let repo_root := get_repo_root env
    let staging_local := branch_exists_local env "staging"
    let main_local := branch_exists_local env "main" || branch_exists_local env "master"
    let staging_remote := branch_exists_remote env "staging" "origin"
    let main_remote := branch_exists_remote env "main" "origin" ||
      branch_exists_remote env "master" "origin"
    if !staging_local && staging_remote then
      let (ok, s1) := confirm "Local 'staging' not found. Create tracking branch from origin/staging?" s
      if ok then
        let (cp, s2) := run_gitE env ["checkout", "-b", "staging", "origin/staging"] s1
        if cp.exitCode != 0 then
          s2.emit (.out "Failed to create local staging from origin/staging.")
        else promote_resolve_main env repo_root true main_local staging_remote main_remote s2
      else promote_resolve_main env repo_root staging_local main_local staging_remote main_remote s1
    else promote_resolve_main env repo_root staging_local main_local staging_remote main_remote s

/-! ## Command and event classifiers -/

/-- A git command that deletes a branch: local non-forcing, local forced,
or remote delete. -/
def isDeleteCmd : List String → Bool
  | ["branch", "-d", _] => true
  | ["branch", "-D", _] => true
  | ["push", "origin", "--delete", _] => true
  | _ => false

/-- A repository-mutating git command (delete, tag, checkout, pull, merge, push). -/
def isMutatingCmd : List String → Bool
  | "branch" :: "-d" :: _ => true
  | "branch" :: "-D" :: _ => true
  | "push" :: _ => true
  | "tag" :: _ => true
  | "checkout" :: _ => true
  | "pull" :: _ => true
  | "merge" :: _ => true
  | _ => false

def isMutatingEvent : Event → Bool
  | .run args => isMutatingCmd args
  | _ => false

def isLogEvent : Event → Bool
  | .log _ => true
  | _ => false

def isAskYNEvent : Event → Bool
  | .askYN _ => true
  | _ => false

def isAskTypedEvent : Event → Bool
  | .askTyped _ => true
  | _ => false

/-- Events that are git command invocations. -/
def isRunEvent : Event → Bool
  | .run _ => true
  | _ => false

/-- First character of a string, used to separate message families. -/
def strHead (s : String) : Option Char := s.data.head?

/-! ## Promote-workflow event enumeration -/

/-- The events the backup tagger can append for branch `b`. -/
def isBackupEvent (env : GitEnv) (b : String) : Event → Bool
  | .out _ => true
  | .askYN _ => true
  | .run args =>
    args == ["tag", create_backup_tag_name b env.now, b] ||
    args == ["push", "origin", create_backup_tag_name b env.now]
  | .log m =>
    m == ("Created backup tag " ++ create_backup_tag_name b env.now ++ " for branch " ++ b) ||
    m == ("Pushed tag " ++ create_backup_tag_name b env.now ++ " to origin")
  | .askTyped _ => false

/-- The events the checkout/pull stage of the promote workflow can append. -/
def isPullsEvent (env : GitEnv) : Event → Bool
  | .out _ => true
  | .run args =>
    args == ["checkout", "staging"] || args == ["pull", "origin", "staging"] ||
    args == ["checkout", promote_chosen_main env] ||
    args == ["pull", "origin", promote_chosen_main env]
  | _ => false

/-- The events the final gate / merge / push stage of the promote workflow can
append.  The branch push is guarded by a successful merge of staging, and the
promotion log entry by a successful merge and a successful push. -/
def isMergePushEvent (env : GitEnv) : Event → Bool
  | .out _ => true
  | .askTyped _ => true
  | .run args =>
    args == ["merge", "staging"] ||
    (args == ["push", "origin", promote_chosen_main env] &&
      (env.runGit ["merge", "staging"]).exitCode == 0)
  | .log m =>
    m == ("Merged staging into " ++ promote_chosen_main env ++ " and pushed to origin") &&
    (env.runGit ["merge", "staging"]).exitCode == 0 &&
    (env.runGit ["push", "origin", promote_chosen_main env]).exitCode == 0
  | _ => false

/-- The events the sync/backup/merge/push stage of the promote workflow can
append. -/
def isSyncEvent (env : GitEnv) (e : Event) : Bool :=
  isPullsEvent env e || isBackupEvent env (promote_chosen_main env) e || isMergePushEvent env e

/-- Sync-stage events plus the main/master tracking-branch creation of the
resolve stage. -/
def isResolveEvent (env : GitEnv) (e : Event) : Bool :=
  isSyncEvent env e ||
  (match e with
   | .run args =>
     args == ["checkout", "-b", "main", "origin/main"] ||
     args == ["checkout", "-b", "master", "origin/master"]
   | _ => false)

/-- All events the promote workflow can append: resolve-stage events plus the
staging tracking-branch creation. -/
def isPromoteEvent (env : GitEnv) (e : Event) : Bool :=
  isResolveEvent env e ||
  (match e with
   | .run args => args == ["checkout", "-b", "staging", "origin/staging"]
   | _ => false)

/-! ## Concrete environments and operator scripts used as witnesses -/

def wG (code : Nat) (out : String) : GitResult := ⟨code, out, ""⟩

def tW : UTCTime := ⟨2025, 1, 2, 3, 4, 5⟩

/-- Every git command succeeds with empty output. -/
def envW1 : GitEnv := ⟨fun _ => wG 0 "", tW⟩

/-- A repository on `develop` with a `feature` branch fully merged (every
`merge-base --is-ancestor` query succeeds). -/
def envW2 : GitEnv :=
  ⟨fun args =>
    if args = ["branch", "--format=%(refname:short)"] then wG 0 "develop\nfeature"
    else if args = ["rev-parse", "--abbrev-ref", "HEAD"] then wG 0 "develop"
    else wG 0 "", tW⟩

/-- A repository on `develop` with an unmerged branch `other`. -/
def envW3 : GitEnv :=
  ⟨fun args =>
    if args = ["branch", "--format=%(refname:short)"] then wG 0 "develop\nother"
    else if args = ["rev-parse", "--abbrev-ref", "HEAD"] then wG 0 "develop"
    else if args = ["merge-base", "--is-ancestor", "other", "develop"] then ⟨1, "", ""⟩
    else if args = ["log", "--oneline", "develop..other"] then wG 0 "abc123 wip"
    else wG 0 "", tW⟩

/-- A repository where the merge of staging fails. -/
def envW5 : GitEnv :=
  ⟨fun args => if args = ["merge", "staging"] then ⟨1, "", "conflict"⟩ else wG 0 "", tW⟩

/-- A repository currently on `feature`, with `feature` also on origin and the
remote `origin` configured. -/
def envW6 : GitEnv :=
  ⟨fun args =>
    if args = ["rev-parse", "--abbrev-ref", "HEAD"] then wG 0 "feature"
    else if args = ["branch", "--format=%(refname:short)"] then wG 0 "feature\ndevelop"
    else if args = ["ls-remote", "--heads", "origin"] then wG 0 "abc\trefs/heads/feature"
    else if args = ["remote"] then wG 0 "origin"
    else wG 0 "", tW⟩

/-- A repository with local `staging` and `main` and a dirty working tree. -/
def envW9 : GitEnv :=
  ⟨fun args =>
    if args = ["branch", "--format=%(refname:short)"] then wG 0 "staging\nmain"
    else if args = ["status", "--porcelain"] then wG 0 " M x"
    else wG 0 "", tW⟩

def iW1 : Nat → String := fun n => ["1", "main", "delete main"].getD n ""

def iW2 : Nat → String := fun n => ["1", "feature", "y"].getD n ""

def iW3 : Nat → String := fun n => ["1", "other", "n", "other"].getD n ""

def iW6 : Nat → String := fun n => ["3", "feature", "n", "feature"].getD n ""

def iW8 : Nat → String := fun n => ["1", "main", "DELETE Main"].getD n ""

def iW9 : Nat → String := fun n => ["n"].getD n ""

def iWempty : Nat → String := fun _ => ""

/-! ## Basic trace lemmas -/

theorem ne_of_strHead (a b : String) (h : strHead a ≠ strHead b) : a ≠ b :=
  fun e => h (by rw [e])

theorem strHead_append (a b : String) :
    strHead (a ++ b) = if a = "" then strHead b else strHead a := by
  rcases a with ⟨l⟩
  rcases l with _ | ⟨c, cs⟩
  · simp [strHead]
  · have hne : String.mk (c :: cs) ≠ "" := by
      intro h
      have := congrArg String.data h
      simp at this
    simp [strHead, hne, String.data_append]

theorem mem_emit {s : S} {ev e : Event} : e ∈ (s.emit ev).trace ↔ e ∈ s.trace ∨ e = ev := by
  simp [S.emit]

theorem protected_ne_empty {b : String} (h : PROTECTED_BRANCHES.contains b = true) :
    (b == "") = false := by
  have hb : b ∈ PROTECTED_BRANCHES := by simpa using h
  simp only [PROTECTED_BRANCHES, List.mem_cons, List.mem_singleton] at hb
  rcases hb with h | h | h | h | h | h | h | h <;> first | (subst h; decide) | simp at h

/-- Claim C1 helper: when the protected-branch gate fails, the whole delete
workflow aborts having issued no git command and written no log line. -/
theorem delete_branch_protected_abort (env : GitEnv) (inputs : Nat → String)
    (hp : PROTECTED_BRANCHES.contains (pyStrip (inputs 1)) = true)
    (hne : pyStrip (inputs 2) ≠ "DELETE " ++ pyStrip (inputs 1)) :
    ∀ e ∈ (delete_branch env inputs).trace, (∀ args, e ≠ .run args) ∧ ∀ m, e ≠ .log m := by
  intro e he
  have hgate : (pyStrip (inputs 2) == "DELETE " ++ pyStrip (inputs 1)) = false :=
    beq_eq_false_iff_ne.mpr hne
  have hbne : (pyStrip (inputs 1) == "") = false := protected_ne_empty hp
  by_cases hc : check_git_repo env
  · by_cases hch : (pyStrip (inputs 0) == "1" || pyStrip (inputs 0) == "2" ||
        pyStrip (inputs 0) == "3") = true
    · simp only [delete_branch, S.read, S.emit, typed_confirm, hc, hch, hbne, hp, hgate,
        Bool.not_true, Bool.false_eq_true, if_false, if_true, Bool.not_false] at he
      simp only [List.mem_append, List.mem_singleton, List.mem_nil_iff, List.nil_append] at he
      rcases he with ((((((h | h) | h) | h) | h) | h) | h) <;> subst h <;>
        exact ⟨fun _ => by simp, fun _ => by simp⟩
    · simp only [delete_branch, S.read, S.emit, hc, hch, Bool.not_true, Bool.false_eq_true,
        if_false, if_true, Bool.not_false] at he
      simp only [List.mem_append, List.mem_singleton, List.mem_nil_iff, List.nil_append] at he
      rcases he with ((h | h) | h) <;> subst h <;>
        exact ⟨fun _ => by simp, fun _ => by simp⟩
  · simp only [delete_branch, hc, Bool.not_false, if_true, S.emit] at he
    simp only [List.nil_append, List.mem_singleton] at he
    subst he
    exact ⟨fun _ => by simp, fun _ => by simp⟩

theorem exists_local_ne_empty {env : GitEnv} {b : String}
    (h : branch_exists_local env b = true) : (b == "") = false := by
  have hb : b ∈ list_local_branches env := by
    simpa [branch_exists_local] using h
  simp only [list_local_branches] at hb
  split at hb
  · simp at hb
  · have := (List.mem_filter.mp hb).2
    simpa using this

/-- Helper: when the operator is on the target branch and declines the switch,
the whole delete workflow (local and remote scopes) aborts with no mutating
command and no log write. -/
theorem delete_switch_decline_abort (env : GitEnv) (inputs : Nat → String)
    (hc : check_git_repo env = true)
    (hch : pyStrip (inputs 0) = "1" ∨ pyStrip (inputs 0) = "3")
    (hnp : PROTECTED_BRANCHES.contains (pyStrip (inputs 1)) = false)
    (hex : branch_exists_local env (pyStrip (inputs 1)) = true)
    (hcur : get_current_branch env = some (pyStrip (inputs 1)))
    (hdecl : pyLower (pyStrip (inputs 2)) ≠ "y") :
    ∀ e ∈ (delete_branch env inputs).trace,
      isMutatingEvent e = false ∧ isLogEvent e = false := by
  have hbne : (pyStrip (inputs 1) == "") = false := exists_local_ne_empty hex
  have hdecl' : (pyLower (pyStrip (inputs 2)) == "y") = false := beq_eq_false_iff_ne.mpr hdecl
  have hnp' : pyStrip (inputs 1) ∉ PROTECTED_BRANCHES := by simpa using hnp
  rcases hch with hch | hch <;> rcases hpb : choose_primary_branch env with _ | t <;>
    simp [delete_branch, local_flow, confirm, S.read, S.emit, hc, hch, hnp', hbne, hex,
      hcur, hpb, hdecl', isMutatingEvent, isMutatingCmd, isLogEvent]

/-- Helper: the merged ("safe") local-delete path, fully characterised: a single
yes/no confirmation guards `branch -d`; no forced delete, no unique-commit
warning, no backup offer, no typed confirmation. -/
theorem delete_merged_path (env : GitEnv) (inputs : Nat → String) (p : String)
    (hc : check_git_repo env = true)
    (hch : pyStrip (inputs 0) = "1")
    (hnp : PROTECTED_BRANCHES.contains (pyStrip (inputs 1)) = false)
    (hex : branch_exists_local env (pyStrip (inputs 1)) = true)
    (hncur : get_current_branch env ≠ some (pyStrip (inputs 1)))
    (hprim : choose_primary_branch env = some p)
    (hmerged : is_merged_into env (pyStrip (inputs 1)) p = true) :
    (Event.run ["branch", "-d", pyStrip (inputs 1)] ∈ (delete_branch env inputs).trace ↔
      pyLower (pyStrip (inputs 2)) = "y") ∧
    (∀ x, Event.run ["branch", "-D", x] ∉ (delete_branch env inputs).trace) ∧
    Event.out "\nCommits that are unique to the branch (would be lost):" ∉
      (delete_branch env inputs).trace ∧
    Event.askYN "Create a backup tag for this branch before deleting?" ∉
      (delete_branch env inputs).trace ∧
    (delete_branch env inputs).trace.countP isAskYNEvent = 1 ∧
    (delete_branch env inputs).trace.countP isAskTypedEvent = 0 := by
  have hbne : (pyStrip (inputs 1) == "") = false := exists_local_ne_empty hex
  have hnp' : pyStrip (inputs 1) ∉ PROTECTED_BRANCHES := by simpa using hnp
  have hncur' : (get_current_branch env == some (pyStrip (inputs 1))) = false :=
    beq_eq_false_iff_ne.mpr hncur
  by_cases hans : pyLower (pyStrip (inputs 2)) = "y"
  · have hans' : (pyLower (pyStrip (inputs 2)) == "y") = true := beq_iff_eq.mpr hans
    by_cases hexit : ((env.runGit ["branch", "-d", pyStrip (inputs 1)]).exitCode == 0) = true <;>
      rcases hrr : get_repo_root env with _ | rt <;>
      simp [delete_branch, local_flow, merge_part, merged_delete, confirm, run_gitE,
        log_action, S.read, S.emit, hc, hch, hnp', hbne, hex, hncur', hprim, hmerged,
        hans, hans', hexit, hrr, isAskYNEvent, isAskTypedEvent, List.countP_cons] <;>
      and_intros <;>
      (apply ne_of_strHead; simp [String.append_assoc, strHead_append, strHead])
  · have hans' : (pyLower (pyStrip (inputs 2)) == "y") = false := beq_eq_false_iff_ne.mpr hans
    simp [delete_branch, local_flow, merge_part, merged_delete, confirm, run_gitE,
      log_action, S.read, S.emit, hc, hch, hnp', hbne, hex, hncur', hprim, hmerged,
      hans, hans', isAskYNEvent, isAskTypedEvent, List.countP_cons] <;>
    and_intros <;>
    (apply ne_of_strHead; simp [String.append_assoc, strHead_append, strHead])

/-- Helper: declining the single confirmation of the merged local-delete path
leaves no mutating command and no log write. -/
theorem delete_merged_decline_abort (env : GitEnv) (inputs : Nat → String) (p : String)
    (hc : check_git_repo env = true)
    (hch : pyStrip (inputs 0) = "1")
    (hnp : PROTECTED_BRANCHES.contains (pyStrip (inputs 1)) = false)
    (hex : branch_exists_local env (pyStrip (inputs 1)) = true)
    (hncur : get_current_branch env ≠ some (pyStrip (inputs 1)))
    (hprim : choose_primary_branch env = some p)
    (hmerged : is_merged_into env (pyStrip (inputs 1)) p = true)
    (hdecl : pyLower (pyStrip (inputs 2)) ≠ "y") :
    ∀ e ∈ (delete_branch env inputs).trace,
      isMutatingEvent e = false ∧ isLogEvent e = false := by
  have hbne : (pyStrip (inputs 1) == "") = false := exists_local_ne_empty hex
  have hnp' : pyStrip (inputs 1) ∉ PROTECTED_BRANCHES := by simpa using hnp
  have hncur' : (get_current_branch env == some (pyStrip (inputs 1))) = false :=
    beq_eq_false_iff_ne.mpr hncur
  have hans' : (pyLower (pyStrip (inputs 2)) == "y") = false := beq_eq_false_iff_ne.mpr hdecl
  simp [delete_branch, local_flow, merge_part, merged_delete, confirm, run_gitE,
    log_action, S.read, S.emit, hc, hch, hnp', hbne, hex, hncur', hprim, hmerged,
    hans', isMutatingEvent, isMutatingCmd, isLogEvent]

/-- Helper: the unmerged local-delete path with the backup offer declined:
unique commits are shown, the backup tag is offered, and `branch -D` is issued
iff the typed reply is exactly the branch name. -/
theorem delete_unmerged_path (env : GitEnv) (inputs : Nat → String)
    (hc : check_git_repo env = true)
    (hch : pyStrip (inputs 0) = "1")
    (hnp : PROTECTED_BRANCHES.contains (pyStrip (inputs 1)) = false)
    (hex : branch_exists_local env (pyStrip (inputs 1)) = true)
    (hncur : get_current_branch env ≠ some (pyStrip (inputs 1)))
    (hunm : ∀ p, choose_primary_branch env = some p →
      is_merged_into env (pyStrip (inputs 1)) p = false)
    (hnb : pyLower (pyStrip (inputs 2)) ≠ "y") :
    Event.out "\nCommits that are unique to the branch (would be lost):" ∈
      (delete_branch env inputs).trace ∧
    Event.askYN "Create a backup tag for this branch before deleting?" ∈
      (delete_branch env inputs).trace ∧
    (Event.run ["branch", "-D", pyStrip (inputs 1)] ∈ (delete_branch env inputs).trace ↔
      pyStrip (inputs 3) = pyStrip (inputs 1)) ∧
    (∀ x y, Event.run ["tag", x, y] ∉ (delete_branch env inputs).trace) ∧
    (∀ m, Event.log m ∈ (delete_branch env inputs).trace →
      m = "Force-deleted local branch " ++ pyStrip (inputs 1)) := by
  have hbne : (pyStrip (inputs 1) == "") = false := exists_local_ne_empty hex
  have hnp' : pyStrip (inputs 1) ∉ PROTECTED_BRANCHES := by simpa using hnp
  have hncur' : (get_current_branch env == some (pyStrip (inputs 1))) = false :=
    beq_eq_false_iff_ne.mpr hncur
  have hnb' : (pyLower (pyStrip (inputs 2)) == "y") = false := beq_eq_false_iff_ne.mpr hnb
  by_cases hforce : pyStrip (inputs 3) = pyStrip (inputs 1)
  · have hforce' : (pyStrip (inputs 3) == pyStrip (inputs 1)) = true := beq_iff_eq.mpr hforce
    rcases hpb : choose_primary_branch env with _ | p
    · by_cases hexit : ((env.runGit ["branch", "-D", pyStrip (inputs 1)]).exitCode == 0) = true <;>
        rcases hrr : get_repo_root env with _ | rt <;>
        simp [delete_branch, local_flow, merge_part, unmerged_delete, confirm, typed_confirm,
          run_gitE, log_action, S.read, S.emit, hc, hch, hnp', hbne, hex, hncur', hpb,
          hforce, hforce', hexit, hrr, hnb'] <;>
        and_intros <;>
        (apply ne_of_strHead; simp [String.append_assoc, strHead_append, strHead])
    · have hm := hunm p hpb
      by_cases hexit : ((env.runGit ["branch", "-D", pyStrip (inputs 1)]).exitCode == 0) = true <;>
        rcases hrr : get_repo_root env with _ | rt <;>
        simp [delete_branch, local_flow, merge_part, unmerged_delete, confirm, typed_confirm,
          run_gitE, log_action, S.read, S.emit, hc, hch, hnp', hbne, hex, hncur', hpb, hm,
          hforce, hforce', hexit, hrr, hnb'] <;>
        and_intros <;>
        (apply ne_of_strHead; simp [String.append_assoc, strHead_append, strHead])
  · have hforce' : (pyStrip (inputs 3) == pyStrip (inputs 1)) = false := beq_eq_false_iff_ne.mpr hforce
    rcases hpb : choose_primary_branch env with _ | p
    · simp [delete_branch, local_flow, merge_part, unmerged_delete, confirm, typed_confirm,
        run_gitE, log_action, S.read, S.emit, hc, hch, hnp', hbne, hex, hncur', hpb,
        hforce, hforce', hnb'] <;>
      and_intros <;>
      (apply ne_of_strHead; simp [String.append_assoc, strHead_append, strHead])
    · have hm := hunm p hpb
      simp [delete_branch, local_flow, merge_part, unmerged_delete, confirm, typed_confirm,
        run_gitE, log_action, S.read, S.emit, hc, hch, hnp', hbne, hex, hncur', hpb, hm,
        hforce, hforce', hnb'] <;>
      and_intros <;>
      (apply ne_of_strHead; simp [String.append_assoc, strHead_append, strHead])

/-- Helper: declining the exact-branch-name gate of the unmerged local-delete
path (with the backup offer also declined) leaves no mutating command and no
log write. -/
theorem delete_unmerged_force_decline_abort (env : GitEnv) (inputs : Nat → String)
    (hc : check_git_repo env = true)
    (hch : pyStrip (inputs 0) = "1")
    (hnp : PROTECTED_BRANCHES.contains (pyStrip (inputs 1)) = false)
    (hex : branch_exists_local env (pyStrip (inputs 1)) = true)
    (hncur : get_current_branch env ≠ some (pyStrip (inputs 1)))
    (hunm : ∀ p, choose_primary_branch env = some p →
      is_merged_into env (pyStrip (inputs 1)) p = false)
    (hnb : pyLower (pyStrip (inputs 2)) ≠ "y")
    (hforce : pyStrip (inputs 3) ≠ pyStrip (inputs 1)) :
    ∀ e ∈ (delete_branch env inputs).trace,
      isMutatingEvent e = false ∧ isLogEvent e = false := by
  have hbne : (pyStrip (inputs 1) == "") = false := exists_local_ne_empty hex
  have hnp' : pyStrip (inputs 1) ∉ PROTECTED_BRANCHES := by simpa using hnp
  have hncur' : (get_current_branch env == some (pyStrip (inputs 1))) = false :=
    beq_eq_false_iff_ne.mpr hncur
  have hnb' : (pyLower (pyStrip (inputs 2)) == "y") = false := beq_eq_false_iff_ne.mpr hnb
  have hforce' : (pyStrip (inputs 3) == pyStrip (inputs 1)) = false := beq_eq_false_iff_ne.mpr hforce
  rcases hpb : choose_primary_branch env with _ | p
  · simp [delete_branch, local_flow, merge_part, unmerged_delete, confirm, typed_confirm,
      run_gitE, log_action, S.read, S.emit, hc, hch, hnp', hbne, hex, hncur', hpb,
      hforce', hnb', isMutatingEvent, isMutatingCmd, isLogEvent]
  · have hm := hunm p hpb
    simp [delete_branch, local_flow, merge_part, unmerged_delete, confirm, typed_confirm,
      run_gitE, log_action, S.read, S.emit, hc, hch, hnp', hbne, hex, hncur', hpb, hm,
      hforce', hnb', isMutatingEvent, isMutatingCmd, isLogEvent]

/-- Helper: in the remote scope, when the branch is absent on origin and the
operator declines the "attempt anyway" confirmation, the workflow ends with no
mutating command and no log write. -/
theorem remote_absent_decline_abort (env : GitEnv) (inputs : Nat → String)
    (hc : check_git_repo env = true)
    (hch : pyStrip (inputs 0) = "2")
    (hnp : PROTECTED_BRANCHES.contains (pyStrip (inputs 1)) = false)
    (hbne : pyStrip (inputs 1) ≠ "")
    (hro : ((if (env.runGit ["remote"]).exitCode == 0 then
        pySplitWs (env.runGit ["remote"]).stdout else []).contains "origin") = true)
    (hnrem : branch_exists_remote env (pyStrip (inputs 1)) "origin" = false)
    (hdecl : pyLower (pyStrip (inputs 2)) ≠ "y") :
    ∀ e ∈ (delete_branch env inputs).trace,
      isMutatingEvent e = false ∧ isLogEvent e = false := by
  have hbne' : (pyStrip (inputs 1) == "") = false := beq_eq_false_iff_ne.mpr hbne
  have hnp' : pyStrip (inputs 1) ∉ PROTECTED_BRANCHES := by simpa using hnp
  have hdecl' : (pyLower (pyStrip (inputs 2)) == "y") = false := beq_eq_false_iff_ne.mpr hdecl
  have hro' : (env.runGit ["remote"]).exitCode = 0 ∧
      "origin" ∈ pySplitWs (env.runGit ["remote"]).stdout := by
    by_cases h : ((env.runGit ["remote"]).exitCode == 0) = true
    · exact ⟨by simpa using h, by simpa [h] using hro⟩
    · simp [h] at hro
  simp [delete_branch, remote_flow, confirm, typed_confirm, run_gitE,
    log_action, S.read, S.emit, hc, hch, hnp', hbne', hro'.1, hro'.2, hnrem, hdecl',
    isMutatingEvent, isMutatingCmd, isLogEvent]

/-- Helper: in the remote scope, a mismatched exact-branch-name confirmation
aborts the remote deletion with no mutating command and no log write. -/
theorem remote_gate_decline_abort (env : GitEnv) (inputs : Nat → String)
    (hc : check_git_repo env = true)
    (hch : pyStrip (inputs 0) = "2")
    (hnp : PROTECTED_BRANCHES.contains (pyStrip (inputs 1)) = false)
    (hbne : pyStrip (inputs 1) ≠ "")
    (hro : ((if (env.runGit ["remote"]).exitCode == 0 then
        pySplitWs (env.runGit ["remote"]).stdout else []).contains "origin") = true)
    (hisrem : branch_exists_remote env (pyStrip (inputs 1)) "origin" = true)
    (hne : pyStrip (inputs 2) ≠ pyStrip (inputs 1)) :
    ∀ e ∈ (delete_branch env inputs).trace,
      isMutatingEvent e = false ∧ isLogEvent e = false := by
  have hbne' : (pyStrip (inputs 1) == "") = false := beq_eq_false_iff_ne.mpr hbne
  have hnp' : pyStrip (inputs 1) ∉ PROTECTED_BRANCHES := by simpa using hnp
  have hne' : (pyStrip (inputs 2) == pyStrip (inputs 1)) = false := beq_eq_false_iff_ne.mpr hne
  have hro' : (env.runGit ["remote"]).exitCode = 0 ∧
      "origin" ∈ pySplitWs (env.runGit ["remote"]).stdout := by
    by_cases h : ((env.runGit ["remote"]).exitCode == 0) = true
    · exact ⟨by simpa using h, by simpa [h] using hro⟩
    · simp [h] at hro
  simp [delete_branch, remote_flow, confirm, typed_confirm, run_gitE,
    log_action, S.read, S.emit, hc, hch, hnp', hbne', hro'.1, hro'.2, hisrem, hne',
    isMutatingEvent, isMutatingCmd, isLogEvent]

@[simp] theorem emit_trace (s : S) (ev : Event) : (s.emit ev).trace = s.trace ++ [ev] := rfl

@[simp] theorem emit_idx (s : S) (ev : Event) : (s.emit ev).idx = s.idx := rfl

@[simp] theorem emit_oracle (s : S) (ev : Event) : (s.emit ev).oracle = s.oracle := rfl

@[simp] theorem confirm_fst (p : String) (s : S) :
    (confirm p s).1 = (pyLower (pyStrip (s.oracle s.idx)) == "y") := rfl

@[simp] theorem confirm_snd_trace (p : String) (s : S) :
    (confirm p s).2.trace = s.trace ++ [.askYN p] := rfl

@[simp] theorem confirm_snd_idx (p : String) (s : S) : (confirm p s).2.idx = s.idx + 1 := rfl

@[simp] theorem confirm_snd_oracle (p : String) (s : S) : (confirm p s).2.oracle = s.oracle := rfl

@[simp] theorem typed_confirm_fst (p x : String) (s : S) :
    (typed_confirm p x s).1 = (pyStrip (s.oracle s.idx) == x) := rfl

@[simp] theorem typed_confirm_snd_trace (p x : String) (s : S) :
    (typed_confirm p x s).2.trace =
      s.trace ++ [.out p, .askTyped "Type the exact text to confirm: "] := by
  simp [typed_confirm, S.read, S.emit]

@[simp] theorem typed_confirm_snd_idx (p x : String) (s : S) :
    (typed_confirm p x s).2.idx = s.idx + 1 := rfl

@[simp] theorem typed_confirm_snd_oracle (p x : String) (s : S) :
    (typed_confirm p x s).2.oracle = s.oracle := rfl

@[simp] theorem run_gitE_fst (env : GitEnv) (a : List String) (s : S) :
    (run_gitE env a s).1 = env.runGit a := rfl

@[simp] theorem run_gitE_snd_trace (env : GitEnv) (a : List String) (s : S) :
    (run_gitE env a s).2.trace = s.trace ++ [.run a] := rfl

@[simp] theorem run_gitE_snd_idx (env : GitEnv) (a : List String) (s : S) :
    (run_gitE env a s).2.idx = s.idx := rfl

@[simp] theorem run_gitE_snd_oracle (env : GitEnv) (a : List String) (s : S) :
    (run_gitE env a s).2.oracle = s.oracle := rfl

@[simp] theorem print_run_git_snd_idx (env : GitEnv) (a : List String) (s : S) :
    (print_run_git env a s).2.idx = s.idx := by
  simp only [print_run_git]
  split <;> split <;> rfl

@[simp] theorem print_run_git_snd_oracle (env : GitEnv) (a : List String) (s : S) :
    (print_run_git env a s).2.oracle = s.oracle := by
  simp only [print_run_git]
  split <;> split <;> rfl

theorem print_run_git_trace_sub {env : GitEnv} {a : List String} {s : S} :
    ∀ e ∈ (print_run_git env a s).2.trace, e ∈ s.trace ∨ e = .run a ∨ ∃ x, e = .out x := by
  intro e he
  simp only [print_run_git, S.emit] at he
  repeat' split at he
  all_goals simp at he
  all_goals tauto

theorem create_backup_tag_trace_sub (env : GitEnv) (b : String) (rr : Option String) (s : S) :
    ∀ e ∈ (create_backup_tag env b rr s).2.trace, e ∈ s.trace ∨ isBackupEvent env b e = true := by
  intro e he
  rcases rr with _ | rt <;>
  · simp only [create_backup_tag, run_gitE, confirm, log_action, S.read, S.emit] at he
    repeat' split at he
    all_goals simp at he
    all_goals casesm* _ ∨ _
    all_goals simp_all [isBackupEvent]

theorem promote_pulls_trace_sub (env : GitEnv) (s : S) :
    ∀ e ∈ (promote_pulls env s).trace, e ∈ s.trace ∨ isPullsEvent env e = true := by
  intro e he
  simp only [promote_pulls] at he
  rcases print_run_git_trace_sub e he with he | he | ⟨x, he⟩
  rotate_left
  · subst he; simp [isPullsEvent]
  · subst he; simp [isPullsEvent]
  rcases print_run_git_trace_sub e he with he | he | ⟨x, he⟩
  rotate_left
  · subst he; simp [isPullsEvent]
  · subst he; simp [isPullsEvent]
  rcases print_run_git_trace_sub e he with he | he | ⟨x, he⟩
  rotate_left
  · subst he; simp [isPullsEvent]
  · subst he; simp [isPullsEvent]
  rcases print_run_git_trace_sub e he with he | he | ⟨x, he⟩
  · exact Or.inl he
  · subst he; simp [isPullsEvent]
  · subst he; simp [isPullsEvent]

theorem isBackupEvent_isSyncEvent {env : GitEnv} {e : Event}
    (h : isBackupEvent env (promote_chosen_main env) e = true) : isSyncEvent env e = true := by
  simp [isSyncEvent, h]

theorem promote_backup_offer_trace_sub (env : GitEnv) (rr : Option String) (s : S) :
    ∀ e ∈ (promote_backup_offer env rr s).trace, e ∈ s.trace ∨ isSyncEvent env e = true := by
  intro e he
  simp only [promote_backup_offer] at he
  split at he
  · split at he
    · simp only [emit_trace, List.mem_append, List.mem_singleton] at he
      rcases he with he | rfl
      · rcases create_backup_tag_trace_sub env _ _ _ e he with h | h
        · simp only [confirm_snd_trace, List.mem_append, List.mem_singleton] at h
          rcases h with h | rfl
          · exact Or.inl h
          · simp [isSyncEvent, isBackupEvent]
        · exact Or.inr (isBackupEvent_isSyncEvent h)
      · simp [isSyncEvent, isBackupEvent]
    · rcases create_backup_tag_trace_sub env _ _ _ e he with h | h
      · simp only [confirm_snd_trace, List.mem_append, List.mem_singleton] at h
        rcases h with h | rfl
        · exact Or.inl h
        · simp [isSyncEvent, isBackupEvent]
      · exact Or.inr (isBackupEvent_isSyncEvent h)
  · simp only [confirm_snd_trace, List.mem_append, List.mem_singleton] at he
    rcases he with he | rfl
    · exact Or.inl he
    · simp [isSyncEvent, isBackupEvent]

theorem promote_merge_push_trace_sub (env : GitEnv) (rr : Option String) (s : S) :
    ∀ e ∈ (promote_merge_push env rr s).trace, e ∈ s.trace ∨ isMergePushEvent env e = true := by
  intro e he
  rcases rr with _ | rt <;>
  · simp only [promote_merge_push, run_gitE, typed_confirm, log_action, S.read, S.emit] at he
    repeat' split at he
    all_goals simp at he
    all_goals casesm* _ ∨ _
    all_goals simp_all [isMergePushEvent]

theorem promote_sync_trace_sub (env : GitEnv) (rr : Option String) (s : S) :
    ∀ e ∈ (promote_sync env rr s).trace, e ∈ s.trace ∨ isSyncEvent env e = true := by
  intro e he
  rcases promote_merge_push_trace_sub env rr _ e he with h | h
  · rcases promote_backup_offer_trace_sub env rr _ e h with h2 | h2
    · rcases promote_pulls_trace_sub env _ e h2 with h3 | h3
      · exact Or.inl h3
      · exact Or.inr (by simp [isSyncEvent, h3])
    · exact Or.inr h2
  · exact Or.inr (by simp [isSyncEvent, h])

theorem promote_check_trace_sub (env : GitEnv) (rr : Option String)
    (sl ml sr mr : Bool) (s : S) :
    ∀ e ∈ (promote_check env rr sl ml sr mr s).trace,
      e ∈ s.trace ∨ isSyncEvent env e = true := by
  intro e he
  simp only [promote_check] at he
  repeat' split at he
  all_goals
    first
      | (simp at he
         all_goals try casesm* _ ∨ _
         all_goals simp_all [isSyncEvent, isPullsEvent, isBackupEvent, isMergePushEvent]
         done)
      | ((rcases promote_sync_trace_sub env rr _ e he with h | h) <;>
          first
            | exact Or.inl h
            | exact Or.inr h
            | (simp at h
               all_goals try casesm* _ ∨ _
               all_goals simp_all [isSyncEvent, isPullsEvent, isBackupEvent, isMergePushEvent]
               done))

theorem isSyncEvent_isResolveEvent {env : GitEnv} {e : Event}
    (h : isSyncEvent env e = true) : isResolveEvent env e = true := by
  simp [isResolveEvent, h]

theorem isResolveEvent_isPromoteEvent {env : GitEnv} {e : Event}
    (h : isResolveEvent env e = true) : isPromoteEvent env e = true := by
  simp [isPromoteEvent, h]

theorem promote_resolve_main_trace_sub (env : GitEnv) (rr : Option String)
    (sl ml sr mr : Bool) (s : S) :
    ∀ e ∈ (promote_resolve_main env rr sl ml sr mr s).trace,
      e ∈ s.trace ∨ isResolveEvent env e = true := by
  intro e he
  simp only [promote_resolve_main, run_gitE] at he
  repeat' split at he
  all_goals
    first
      | (simp at he
         all_goals try casesm* _ ∨ _
         all_goals simp_all [isResolveEvent, isSyncEvent, isPullsEvent, isBackupEvent,
           isMergePushEvent]
         done)
      | ((rcases promote_check_trace_sub env rr _ _ _ _ _ e he with h | h) <;>
          first
            | exact Or.inl h
            | exact Or.inr (isSyncEvent_isResolveEvent h)
            | (simp at h
               all_goals try casesm* _ ∨ _
               all_goals simp_all [isResolveEvent, isSyncEvent, isPullsEvent, isBackupEvent,
                 isMergePushEvent]
               done))

theorem push_staging_to_main_trace_sub (env : GitEnv) (inputs : Nat → String) :
    ∀ e ∈ (push_staging_to_main env inputs).trace, isPromoteEvent env e = true := by
  intro e he
  simp only [push_staging_to_main, run_gitE] at he
  repeat' split at he
  all_goals
    first
      | (simp at he
         all_goals try casesm* _ ∨ _
         all_goals simp_all [isPromoteEvent, isResolveEvent, isSyncEvent, isPullsEvent,
           isBackupEvent, isMergePushEvent]
         done)
      | ((rcases promote_resolve_main_trace_sub env _ _ _ _ _ _ e he with h | h) <;>
          first
            | exact isResolveEvent_isPromoteEvent h
            | (simp at h
               all_goals try casesm* _ ∨ _
               all_goals simp_all [isPromoteEvent, isResolveEvent, isSyncEvent, isPullsEvent,
                 isBackupEvent, isMergePushEvent]
               done))

/-! ## Message-family separation facts -/

theorem strHead_ne (a b : String) (ca cb : Char) (ha : strHead a = some ca)
    (hb : strHead b = some cb) (hne : ca ≠ cb) : (a == b) = false :=
  beq_eq_false_iff_ne.mpr (ne_of_strHead a b (by rw [ha, hb]; simpa using hne))

theorem strHead_create_backup_tag_name (b : String) (t : UTCTime) :
    strHead (create_backup_tag_name b t) = some 'b' := rfl

theorem strHead_promote_chosen_main (env : GitEnv) :
    strHead (promote_chosen_main env) = some 'm' := by
  simp only [promote_chosen_main]
  split <;> decide

/-! ## Promote-workflow path helpers -/

/-- Helper: with staging and a main branch present locally, a dirty working
tree and a declined "proceed anyway" confirmation abort the promote workflow
before any git command is issued and before anything is logged. -/
theorem promote_dirty_decline_abort (env : GitEnv) (inputs : Nat → String)
    (hc : check_git_repo env = true)
    (hsl : branch_exists_local env "staging" = true)
    (hml : (branch_exists_local env "main" || branch_exists_local env "master") = true)
    (hdirty : is_working_tree_clean env = false)
    (hdecl : pyLower (pyStrip (inputs 0)) ≠ "y") :
    ∀ e ∈ (push_staging_to_main env inputs).trace,
      (∀ args, e ≠ .run args) ∧ ∀ m, e ≠ .log m := by
  have hdecl' : (pyLower (pyStrip (inputs 0)) == "y") = false := beq_eq_false_iff_ne.mpr hdecl
  simp [push_staging_to_main, promote_resolve_main, promote_check, confirm, S.read, S.emit,
    hc, hsl, hml, hdirty, hdecl']

/-- Claim C5: in the promote workflow, a failed (non-zero) merge of staging
means the push of the chosen main is never issued and no promotion entry is
logged; conversely a promotion entry is logged only when both the merge and
the push succeeded. -/
theorem claim_C5 (env : GitEnv) (inputs : Nat → String) :
    ((env.runGit ["merge", "staging"]).exitCode ≠ 0 →
      Event.run ["push", "origin", promote_chosen_main env] ∉
        (push_staging_to_main env inputs).trace ∧
      Event.log ("Merged staging into " ++ promote_chosen_main env ++
        " and pushed to origin") ∉ (push_staging_to_main env inputs).trace) ∧
    (Event.log ("Merged staging into " ++ promote_chosen_main env ++
        " and pushed to origin") ∈ (push_staging_to_main env inputs).trace →
      (env.runGit ["merge", "staging"]).exitCode = 0 ∧
      (env.runGit ["push", "origin", promote_chosen_main env]).exitCode = 0) := by
  have f1 : promote_chosen_main env ≠
      create_backup_tag_name (promote_chosen_main env) env.now :=
    ne_of_strHead _ _ (by
      rw [strHead_promote_chosen_main, strHead_create_backup_tag_name]
      decide)
  have f2 : ("Merged staging into " ++ promote_chosen_main env ++ " and pushed to origin") ≠
      ("Created backup tag " ++ create_backup_tag_name (promote_chosen_main env) env.now ++
        " for branch " ++ promote_chosen_main env) :=
    ne_of_strHead _ _ (by
      rw [show strHead ("Merged staging into " ++ promote_chosen_main env ++
        " and pushed to origin") = some 'M' from rfl]
      rw [show strHead ("Created backup tag " ++
        create_backup_tag_name (promote_chosen_main env) env.now ++
        " for branch " ++ promote_chosen_main env) = some 'C' from rfl]
      decide)
  have f3 : ("Merged staging into " ++ promote_chosen_main env ++ " and pushed to origin") ≠
      ("Pushed tag " ++ create_backup_tag_name (promote_chosen_main env) env.now ++
        " to origin") :=
    ne_of_strHead _ _ (by
      rw [show strHead ("Merged staging into " ++ promote_chosen_main env ++
        " and pushed to origin") = some 'M' from rfl]
      rw [show strHead ("Pushed tag " ++
        create_backup_tag_name (promote_chosen_main env) env.now ++
        " to origin") = some 'P' from rfl]
      decide)
  constructor
  · intro hm
    constructor
    · intro hmem
      have h := push_staging_to_main_trace_sub env inputs _ hmem
      simp [isPromoteEvent, isResolveEvent, isSyncEvent, isPullsEvent, isBackupEvent,
        isMergePushEvent, f1, hm] at h
    · intro hmem
      have h := push_staging_to_main_trace_sub env inputs _ hmem
      simp [isPromoteEvent, isResolveEvent, isSyncEvent, isPullsEvent, isBackupEvent,
        isMergePushEvent, f2, f3, hm] at h
  · intro hmem
    have h := push_staging_to_main_trace_sub env inputs _ hmem
    simp [isPromoteEvent, isResolveEvent, isSyncEvent, isPullsEvent, isBackupEvent,
      isMergePushEvent, f2, f3] at h
    exact h

@[simp] theorem promote_pulls_idx (env : GitEnv) (s : S) :
    (promote_pulls env s).idx = s.idx := by
  simp [promote_pulls]

@[simp] theorem promote_pulls_oracle (env : GitEnv) (s : S) :
    (promote_pulls env s).oracle = s.oracle := by
  simp [promote_pulls]

/-- Declining the backup offer of the promote workflow only records the
prompt. -/
theorem promote_backup_offer_decline (env : GitEnv) (rr : Option String) (s : S)
    (h : (pyLower (pyStrip (s.oracle s.idx)) == "y") = false) :
    promote_backup_offer env rr s =
      (confirm ("Create a backup tag for '" ++ promote_chosen_main env ++
        "' before merging?") s).2 := by
  simp only [promote_backup_offer, confirm_fst, h, Bool.false_eq_true, if_false]

/-- A mismatched final-gate reply ends the merge/push stage with display
events only. -/
theorem promote_merge_push_decline (env : GitEnv) (rr : Option String) (s : S)
    (h : (pyStrip (s.oracle s.idx) == "PUSH STAGING TO MAIN") = false) :
    (promote_merge_push env rr s).trace = s.trace ++
      [.out ("This will merge 'staging' into '" ++ promote_chosen_main env ++
        "' and push to origin."),
       .out "To confirm, type exactly: PUSH STAGING TO MAIN",
       .out "Final confirmation",
       .askTyped "Type the exact text to confirm: ",
       .out "Aborted push staging->main."] := by
  simp [promote_merge_push, h]

/-- Helper: with staging and a main branch locally present and a clean tree,
declining the backup offer means no `git tag` command is issued and the only
possible audit entry is the promotion entry. -/
theorem promote_backup_decline_no_tag (env : GitEnv) (inputs : Nat → String)
    (hc : check_git_repo env = true)
    (hsl : branch_exists_local env "staging" = true)
    (hml : (branch_exists_local env "main" || branch_exists_local env "master") = true)
    (hclean : is_working_tree_clean env = true)
    (hdecl : pyLower (pyStrip (inputs 0)) ≠ "y") :
    (∀ x y, Event.run ["tag", x, y] ∉ (push_staging_to_main env inputs).trace) ∧
    (∀ m, Event.log m ∈ (push_staging_to_main env inputs).trace →
      m = "Merged staging into " ++ promote_chosen_main env ++ " and pushed to origin") := by
  have hdecl' : (pyLower (pyStrip (inputs 0)) == "y") = false := beq_eq_false_iff_ne.mpr hdecl
  have hred : push_staging_to_main env inputs =
      promote_merge_push env (get_repo_root env)
        (confirm ("Create a backup tag for '" ++ promote_chosen_main env ++
          "' before merging?") (promote_pulls env ⟨inputs, 0, []⟩)).2 := by
    rw [show push_staging_to_main env inputs =
        promote_sync env (get_repo_root env) ⟨inputs, 0, []⟩ by
      simp [push_staging_to_main, promote_resolve_main, promote_check,
        hc, hsl, hml, hclean]]
    rw [promote_sync, promote_backup_offer_decline]
    simp [hdecl']
  constructor
  · intro x y hmem
    rw [hred] at hmem
    rcases promote_merge_push_trace_sub env _ _ _ hmem with h | h
    · simp only [confirm_snd_trace, List.mem_append, List.mem_singleton] at h
      rcases h with h | h
      · rcases promote_pulls_trace_sub env _ _ h with h2 | h2
        · simp at h2
        · simp [isPullsEvent] at h2
      · simp at h
    · simp [isMergePushEvent] at h
  · intro m hmem
    rw [hred] at hmem
    rcases promote_merge_push_trace_sub env _ _ _ hmem with h | h
    · simp only [confirm_snd_trace, List.mem_append, List.mem_singleton] at h
      rcases h with h | h
      · rcases promote_pulls_trace_sub env _ _ h with h2 | h2
        · simp at h2
        · simp [isPullsEvent] at h2
      · simp at h
    · simp [isMergePushEvent] at h
      exact h.1.1

/-- Helper: with staging and a main branch locally present, a clean tree and
the backup offer declined, a mismatched final-gate reply leaves the merge, the
push, the tag creation and the audit log untouched. -/
theorem promote_final_gate_decline (env : GitEnv) (inputs : Nat → String)
    (hc : check_git_repo env = true)
    (hsl : branch_exists_local env "staging" = true)
    (hml : (branch_exists_local env "main" || branch_exists_local env "master") = true)
    (hclean : is_working_tree_clean env = true)
    (hdecl : pyLower (pyStrip (inputs 0)) ≠ "y")
    (hgate : pyStrip (inputs 1) ≠ "PUSH STAGING TO MAIN") :
    Event.run ["merge", "staging"] ∉ (push_staging_to_main env inputs).trace ∧
    (∀ x y, Event.run ["push", x, y] ∉ (push_staging_to_main env inputs).trace) ∧
    (∀ x y, Event.run ["tag", x, y] ∉ (push_staging_to_main env inputs).trace) ∧
    (∀ m, Event.log m ∉ (push_staging_to_main env inputs).trace) := by
  have hdecl' : (pyLower (pyStrip (inputs 0)) == "y") = false := beq_eq_false_iff_ne.mpr hdecl
  have hgate' : (pyStrip (inputs 1) == "PUSH STAGING TO MAIN") = false :=
    beq_eq_false_iff_ne.mpr hgate
  have hred : (push_staging_to_main env inputs).trace =
      (promote_pulls env ⟨inputs, 0, []⟩).trace ++
        [.askYN ("Create a backup tag for '" ++ promote_chosen_main env ++
          "' before merging?")] ++
        [.out ("This will merge 'staging' into '" ++ promote_chosen_main env ++
          "' and push to origin."),
         .out "To confirm, type exactly: PUSH STAGING TO MAIN",
         .out "Final confirmation",
         .askTyped "Type the exact text to confirm: ",
         .out "Aborted push staging->main."] := by
    rw [show push_staging_to_main env inputs =
        promote_sync env (get_repo_root env) ⟨inputs, 0, []⟩ by
      simp [push_staging_to_main, promote_resolve_main, promote_check,
        hc, hsl, hml, hclean]]
    rw [promote_sync, promote_backup_offer_decline]
    · rw [promote_merge_push_decline]
      · simp
      · simpa using hgate'
    · simpa using hdecl'
  refine ⟨?_, ?_, ?_, ?_⟩
  · intro hmem
    rw [hred] at hmem
    simp at hmem
    rcases promote_pulls_trace_sub env _ _ hmem with h | h
    · simp at h
    · simp [isPullsEvent] at h
  · intro x y hmem
    rw [hred] at hmem
    simp at hmem
    rcases promote_pulls_trace_sub env _ _ hmem with h | h
    · simp at h
    · simp [isPullsEvent] at h
  · intro x y hmem
    rw [hred] at hmem
    simp at hmem
    rcases promote_pulls_trace_sub env _ _ hmem with h | h
    · simp at h
    · simp [isPullsEvent] at h
  · intro m hmem
    rw [hred] at hmem
    simp at hmem
    rcases promote_pulls_trace_sub env _ _ hmem with h | h
    · simp at h
    · simp [isPullsEvent] at h

/-- Helper: declining the offer to create a local tracking `staging` branch
never issues that tracking checkout (the workflow continues otherwise). -/
theorem promote_staging_create_decline (env : GitEnv) (inputs : Nat → String)
    (hsl : branch_exists_local env "staging" = false)
    (hsr : branch_exists_remote env "staging" "origin" = true)
    (hdecl : pyLower (pyStrip (inputs 0)) ≠ "y") :
    Event.run ["checkout", "-b", "staging", "origin/staging"] ∉
      (push_staging_to_main env inputs).trace := by
  have hdecl' : (pyLower (pyStrip (inputs 0)) == "y") = false := beq_eq_false_iff_ne.mpr hdecl
  intro hmem
  by_cases hc : check_git_repo env
  · rw [show push_staging_to_main env inputs =
        promote_resolve_main env (get_repo_root env) (branch_exists_local env "staging")
          (branch_exists_local env "main" || branch_exists_local env "master")
          (branch_exists_remote env "staging" "origin")
          (branch_exists_remote env "main" "origin" ||
            branch_exists_remote env "master" "origin")
          (confirm "Local 'staging' not found. Create tracking branch from origin/staging?"
            ⟨inputs, 0, []⟩).2 by
      simp [push_staging_to_main, hc, hsl, hsr, hdecl']] at hmem
    rcases promote_resolve_main_trace_sub env _ _ _ _ _ _ _ hmem with h | h
    · simp at h
    · simp [isResolveEvent, isSyncEvent, isPullsEvent, isBackupEvent, isMergePushEvent] at h
  · simp [push_staging_to_main, hc] at hmem

/-- Helper: declining the offer to create a local tracking main/master branch
never issues any tracking checkout in the rest of the workflow. -/
theorem promote_main_create_decline (env : GitEnv) (inputs : Nat → String)
    (hsl : branch_exists_local env "staging" = true)
    (hml : (branch_exists_local env "main" || branch_exists_local env "master") = false)
    (hmr : (branch_exists_remote env "main" "origin" ||
      branch_exists_remote env "master" "origin") = true)
    (hdecl : pyLower (pyStrip (inputs 0)) ≠ "y") :
    ∀ x y, Event.run ["checkout", "-b", x, y] ∉ (push_staging_to_main env inputs).trace := by
  have hdecl' : (pyLower (pyStrip (inputs 0)) == "y") = false := beq_eq_false_iff_ne.mpr hdecl
  intro x y hmem
  by_cases hc : check_git_repo env
  · rw [show push_staging_to_main env inputs =
        promote_check env (get_repo_root env) (branch_exists_local env "staging")
          (branch_exists_local env "main" || branch_exists_local env "master")
          (branch_exists_remote env "staging" "origin")
          (branch_exists_remote env "main" "origin" ||
            branch_exists_remote env "master" "origin")
          (confirm ("Local main/master not found. Create tracking branch from origin/" ++
            (if branch_exists_remote env "main" "origin" then "main" else "master") ++ "?")
            ⟨inputs, 0, []⟩).2 by
      simp [push_staging_to_main, promote_resolve_main, hc, hsl, hml, hmr, hdecl']] at hmem
    rcases promote_check_trace_sub env _ _ _ _ _ _ _ hmem with h | h
    · simp at h
    · simp [isSyncEvent, isPullsEvent, isBackupEvent, isMergePushEvent] at h
  · simp [push_staging_to_main, hc] at hmem

/-- Helper: when the backup tag was created and the branch exists on origin,
declining the publish confirmation means no push is issued by the backup
tagger and only the creation is logged. -/
theorem create_backup_tag_publish_decline (env : GitEnv) (b : String)
    (rr : Option String) (inputs : Nat → String)
    (htag : (env.runGit ["tag", create_backup_tag_name b env.now, b]).exitCode = 0)
    (hrem : branch_exists_remote env b "origin" = true)
    (hdecl : pyLower (pyStrip (inputs 0)) ≠ "y") :
    (∀ x y, Event.run ["push", x, y] ∉ (create_backup_tag env b rr ⟨inputs, 0, []⟩).2.trace) ∧
    (∀ m, Event.log m ∈ (create_backup_tag env b rr ⟨inputs, 0, []⟩).2.trace →
      m = "Created backup tag " ++ create_backup_tag_name b env.now ++ " for branch " ++ b) := by
  have hdecl' : (pyLower (pyStrip (inputs 0)) == "y") = false := beq_eq_false_iff_ne.mpr hdecl
  rcases hrr : rr with _ | rt <;>
    simp [create_backup_tag, run_gitE, confirm, log_action, S.read, S.emit,
      htag, hrem, hdecl']

/-! ## The claims -/

/-- Claim C1: for every branch name in the protected set, the safe delete
workflow issues no delete command (indeed no git command at all) unless the
typed reply, after trimming, is exactly `DELETE <branch>`; on a mismatch the
entire operation (both scopes) aborts. -/
theorem claim_C1 (env : GitEnv) (inputs : Nat → String)
    (hp : PROTECTED_BRANCHES.contains (pyStrip (inputs 1)) = true)
    (hne : pyStrip (inputs 2) ≠ "DELETE " ++ pyStrip (inputs 1)) :
    ∀ args, Event.run args ∉ (delete_branch env inputs).trace :=
  fun args hmem =>
    (delete_branch_protected_abort env inputs hp hne _ hmem).1 args rfl

/-- Witness for claim C1: deleting protected `main` with the reply
`delete main` issues no `branch -d`. -/
theorem claim_C1_witness :
    Event.run ["branch", "-d", "main"] ∉ (delete_branch envW1 iW1).trace :=
  claim_C1 envW1 iW1 (by decide) (by decide) ["branch", "-d", "main"]

/-- Claim C2: for a branch that exists locally (and is not the current
branch), is not protected, with a determinable primary the branch is merged
into, the local delete path issues `branch -d` exactly on an affirmative
single low-tier confirmation, never issues `branch -D`, does not display the
unique-commit warning, does not offer a backup tag, and prompts exactly one
yes/no and no typed confirmation. -/
theorem claim_C2 (env : GitEnv) (inputs : Nat → String) (p : String)
    (hc : check_git_repo env = true)
    (hch : pyStrip (inputs 0) = "1")
    (hnp : PROTECTED_BRANCHES.contains (pyStrip (inputs 1)) = false)
    (hex : branch_exists_local env (pyStrip (inputs 1)) = true)
    (hncur : get_current_branch env ≠ some (pyStrip (inputs 1)))
    (hprim : choose_primary_branch env = some p)
    (hmerged : is_merged_into env (pyStrip (inputs 1)) p = true) :
    (Event.run ["branch", "-d", pyStrip (inputs 1)] ∈ (delete_branch env inputs).trace ↔
      pyLower (pyStrip (inputs 2)) = "y") ∧
    (∀ x, Event.run ["branch", "-D", x] ∉ (delete_branch env inputs).trace) ∧
    Event.out "\nCommits that are unique to the branch (would be lost):" ∉
      (delete_branch env inputs).trace ∧
    Event.askYN "Create a backup tag for this branch before deleting?" ∉
      (delete_branch env inputs).trace ∧
    (delete_branch env inputs).trace.countP isAskYNEvent = 1 ∧
    (delete_branch env inputs).trace.countP isAskTypedEvent = 0 :=
  delete_merged_path env inputs p hc hch hnp hex hncur hprim hmerged

/-- Witness for claim C2: the merged branch `feature` is deleted with
`branch -d` after a single `y`. -/
theorem claim_C2_witness :
    Event.run ["branch", "-d", "feature"] ∈ (delete_branch envW2 iW2).trace :=
  (claim_C2 envW2 iW2 "develop" (by decide) (by decide) (by decide) (by decide)
    (by decide) (by decide) (by decide)).1.mpr (by decide)

/-- Claim C3: for a locally existing, non-protected branch (not the current
one) that is not an ancestor of the primary — or with no determinable
primary — the local delete path displays the unique-commit sequence, offers
a backup tag, and (with the backup offer declined) issues `branch -D` iff
the typed reply, after trimming, is exactly the branch name. -/
theorem claim_C3 (env : GitEnv) (inputs : Nat → String)
    (hc : check_git_repo env = true)
    (hch : pyStrip (inputs 0) = "1")
    (hnp : PROTECTED_BRANCHES.contains (pyStrip (inputs 1)) = false)
    (hex : branch_exists_local env (pyStrip (inputs 1)) = true)
    (hncur : get_current_branch env ≠ some (pyStrip (inputs 1)))
    (hunm : ∀ p, choose_primary_branch env = some p →
      is_merged_into env (pyStrip (inputs 1)) p = false)
    (hnb : pyLower (pyStrip (inputs 2)) ≠ "y") :
    Event.out "\nCommits that are unique to the branch (would be lost):" ∈
      (delete_branch env inputs).trace ∧
    Event.askYN "Create a backup tag for this branch before deleting?" ∈
      (delete_branch env inputs).trace ∧
    (Event.run ["branch", "-D", pyStrip (inputs 1)] ∈ (delete_branch env inputs).trace ↔
      pyStrip (inputs 3) = pyStrip (inputs 1)) :=
  let h := delete_unmerged_path env inputs hc hch hnp hex hncur hunm hnb
  ⟨h.1, h.2.1, h.2.2.1⟩

/-- Witness for claim C3: the unmerged branch `other` is force-deleted after
its exact name is typed. -/
theorem claim_C3_witness :
    Event.run ["branch", "-D", "other"] ∈ (delete_branch envW3 iW3).trace :=
  (claim_C3 envW3 iW3 (by decide) (by decide) (by decide) (by decide) (by decide)
    (by
      intro p hp
      rw [show choose_primary_branch envW3 = some "develop" by decide] at hp
      injection hp with h
      subst h
      decide)
    (by decide)).2.2.mpr (by decide)

/-- Claim C4: a declined or mismatched confirmation at each gate of the safe
delete and safe promote workflows yields zero repository-mutating git
commands and zero audit-log writes for the step that gate guards.  The
conjuncts cover, in order: the protected-branch gate, the switch-away gate,
the merged-delete confirmation, the backup offer of the unmerged path, the
forced-delete gate, the remote "attempt anyway" confirmation, the
remote-delete gate, the staging tracking-creation offer, the main
tracking-creation offer, the dirty-tree gate, the promote backup offer, the
promote final gate, and the backup-tag publish confirmation. -/
theorem claim_C4 :
    (∀ (env : GitEnv) (inputs : Nat → String),
      PROTECTED_BRANCHES.contains (pyStrip (inputs 1)) = true →
      pyStrip (inputs 2) ≠ "DELETE " ++ pyStrip (inputs 1) →
      ∀ e ∈ (delete_branch env inputs).trace,
        (∀ args, e ≠ .run args) ∧ ∀ m, e ≠ .log m) ∧
    (∀ (env : GitEnv) (inputs : Nat → String),
      check_git_repo env = true →
      (pyStrip (inputs 0) = "1" ∨ pyStrip (inputs 0) = "3") →
      PROTECTED_BRANCHES.contains (pyStrip (inputs 1)) = false →
      branch_exists_local env (pyStrip (inputs 1)) = true →
      get_current_branch env = some (pyStrip (inputs 1)) →
      pyLower (pyStrip (inputs 2)) ≠ "y" →
      ∀ e ∈ (delete_branch env inputs).trace,
        isMutatingEvent e = false ∧ isLogEvent e = false) ∧
    (∀ (env : GitEnv) (inputs : Nat → String) (p : String),
      check_git_repo env = true →
      pyStrip (inputs 0) = "1" →
      PROTECTED_BRANCHES.contains (pyStrip (inputs 1)) = false →
      branch_exists_local env (pyStrip (inputs 1)) = true →
      get_current_branch env ≠ some (pyStrip (inputs 1)) →
      choose_primary_branch env = some p →
      is_merged_into env (pyStrip (inputs 1)) p = true →
      pyLower (pyStrip (inputs 2)) ≠ "y" →
      ∀ e ∈ (delete_branch env inputs).trace,
        isMutatingEvent e = false ∧ isLogEvent e = false) ∧
    (∀ (env : GitEnv) (inputs : Nat → String),
      check_git_repo env = true →
      pyStrip (inputs 0) = "1" →
      PROTECTED_BRANCHES.contains (pyStrip (inputs 1)) = false →
      branch_exists_local env (pyStrip (inputs 1)) = true →
      get_current_branch env ≠ some (pyStrip (inputs 1)) →
      (∀ p, choose_primary_branch env = some p →
        is_merged_into env (pyStrip (inputs 1)) p = false) →
      pyLower (pyStrip (inputs 2)) ≠ "y" →
      (∀ x y, Event.run ["tag", x, y] ∉ (delete_branch env inputs).trace) ∧
      (∀ m, Event.log m ∈ (delete_branch env inputs).trace →
        m = "Force-deleted local branch " ++ pyStrip (inputs 1))) ∧
    (∀ (env : GitEnv) (inputs : Nat → String),
      check_git_repo env = true →
      pyStrip (inputs 0) = "1" →
      PROTECTED_BRANCHES.contains (pyStrip (inputs 1)) = false →
      branch_exists_local env (pyStrip (inputs 1)) = true →
      get_current_branch env ≠ some (pyStrip (inputs 1)) →
      (∀ p, choose_primary_branch env = some p →
        is_merged_into env (pyStrip (inputs 1)) p = false) →
      pyLower (pyStrip (inputs 2)) ≠ "y" →
      pyStrip (inputs 3) ≠ pyStrip (inputs 1) →
      ∀ e ∈ (delete_branch env inputs).trace,
        isMutatingEvent e = false ∧ isLogEvent e = false) ∧
    (∀ (env : GitEnv) (inputs : Nat → String),
      check_git_repo env = true →
      pyStrip (inputs 0) = "2" →
      PROTECTED_BRANCHES.contains (pyStrip (inputs 1)) = false →
      pyStrip (inputs 1) ≠ "" →
      ((if (env.runGit ["remote"]).exitCode == 0 then
          pySplitWs (env.runGit ["remote"]).stdout else []).contains "origin") = true →
      branch_exists_remote env (pyStrip (inputs 1)) "origin" = false →
      pyLower (pyStrip (inputs 2)) ≠ "y" →
      ∀ e ∈ (delete_branch env inputs).trace,
        isMutatingEvent e = false ∧ isLogEvent e = false) ∧
    (∀ (env : GitEnv) (inputs : Nat → String),
      check_git_repo env = true →
      pyStrip (inputs 0) = "2" →
      PROTECTED_BRANCHES.contains (pyStrip (inputs 1)) = false →
      pyStrip (inputs 1) ≠ "" →
      ((if (env.runGit ["remote"]).exitCode == 0 then
          pySplitWs (env.runGit ["remote"]).stdout else []).contains "origin") = true →
      branch_exists_remote env (pyStrip (inputs 1)) "origin" = true →
      pyStrip (inputs 2) ≠ pyStrip (inputs 1) →
      ∀ e ∈ (delete_branch env inputs).trace,
        isMutatingEvent e = false ∧ isLogEvent e = false) ∧
    (∀ (env : GitEnv) (inputs : Nat → String),
      branch_exists_local env "staging" = false →
      branch_exists_remote env "staging" "origin" = true →
      pyLower (pyStrip (inputs 0)) ≠ "y" →
      Event.run ["checkout", "-b", "staging", "origin/staging"] ∉
        (push_staging_to_main env inputs).trace) ∧
    (∀ (env : GitEnv) (inputs : Nat → String),
      branch_exists_local env "staging" = true →
      (branch_exists_local env "main" || branch_exists_local env "master") = false →
      (branch_exists_remote env "main" "origin" ||
        branch_exists_remote env "master" "origin") = true →
      pyLower (pyStrip (inputs 0)) ≠ "y" →
      ∀ x y, Event.run ["checkout", "-b", x, y] ∉ (push_staging_to_main env inputs).trace) ∧
    (∀ (env : GitEnv) (inputs : Nat → String),
      check_git_repo env = true →
      branch_exists_local env "staging" = true →
      (branch_exists_local env "main" || branch_exists_local env "master") = true →
      is_working_tree_clean env = false →
      pyLower (pyStrip (inputs 0)) ≠ "y" →
      ∀ e ∈ (push_staging_to_main env inputs).trace,
        (∀ args, e ≠ .run args) ∧ ∀ m, e ≠ .log m) ∧
    (∀ (env : GitEnv) (inputs : Nat → String),
      check_git_repo env = true →
      branch_exists_local env "staging" = true →
      (branch_exists_local env "main" || branch_exists_local env "master") = true →
      is_working_tree_clean env = true →
      pyLower (pyStrip (inputs 0)) ≠ "y" →
      (∀ x y, Event.run ["tag", x, y] ∉ (push_staging_to_main env inputs).trace) ∧
      (∀ m, Event.log m ∈ (push_staging_to_main env inputs).trace →
        m = "Merged staging into " ++ promote_chosen_main env ++ " and pushed to origin")) ∧
    (∀ (env : GitEnv) (inputs : Nat → String),
      check_git_repo env = true →
      branch_exists_local env "staging" = true →
      (branch_exists_local env "main" || branch_exists_local env "master") = true →
      is_working_tree_clean env = true →
      pyLower (pyStrip (inputs 0)) ≠ "y" →
      pyStrip (inputs 1) ≠ "PUSH STAGING TO MAIN" →
      Event.run ["merge", "staging"] ∉ (push_staging_to_main env inputs).trace ∧
      (∀ x y, Event.run ["push", x, y] ∉ (push_staging_to_main env inputs).trace) ∧
      (∀ x y, Event.run ["tag", x, y] ∉ (push_staging_to_main env inputs).trace) ∧
      (∀ m, Event.log m ∉ (push_staging_to_main env inputs).trace)) ∧
    (∀ (env : GitEnv) (b : String) (rr : Option String) (inputs : Nat → String),
      (env.runGit ["tag", create_backup_tag_name b env.now, b]).exitCode = 0 →
      branch_exists_remote env b "origin" = true →
      pyLower (pyStrip (inputs 0)) ≠ "y" →
      (∀ x y, Event.run ["push", x, y] ∉
        (create_backup_tag env b rr ⟨inputs, 0, []⟩).2.trace) ∧
      (∀ m, Event.log m ∈ (create_backup_tag env b rr ⟨inputs, 0, []⟩).2.trace →
        m = "Created backup tag " ++ create_backup_tag_name b env.now ++
          " for branch " ++ b)) :=
  ⟨delete_branch_protected_abort,
   delete_switch_decline_abort,
   delete_merged_decline_abort,
   fun env inputs hc hch hnp hex hncur hunm hnb =>
     let h := delete_unmerged_path env inputs hc hch hnp hex hncur hunm hnb
     ⟨h.2.2.2.1, h.2.2.2.2⟩,
   delete_unmerged_force_decline_abort,
   remote_absent_decline_abort,
   remote_gate_decline_abort,
   promote_staging_create_decline,
   promote_main_create_decline,
   promote_dirty_decline_abort,
   promote_backup_decline_no_tag,
   promote_final_gate_decline,
   create_backup_tag_publish_decline⟩

/-- Witness for claim C4: the failed protected gate on `main` leaves no
remote delete command. -/
theorem claim_C4_witness :
    Event.run ["push", "origin", "--delete", "main"] ∉ (delete_branch envW1 iW1).trace :=
  fun hmem => (claim_C4.1 envW1 iW1 (by decide) (by decide) _ hmem).1 _ rfl

/-- Witness for claim C5: with a conflicting merge, no push of the chosen
main is issued. -/
theorem claim_C5_witness :
    Event.run ["push", "origin", promote_chosen_main envW5] ∉
      (push_staging_to_main envW5 iWempty).trace :=
  ((claim_C5 envW5 iWempty).1 (by decide)).1

/-- Counterexample to claim C6 as stated: with scope "both", the target being
the current branch, and the switch declined, the remote delete path does NOT
proceed — the `git remote` query is never issued and no remote delete is
attempted, even though the later inputs would have satisfied the remote
gate. -/
theorem claim_C6_counterexample :
    Event.run ["push", "origin", "--delete", "feature"] ∉ (delete_branch envW6 iW6).trace ∧
    Event.run ["remote"] ∉ (delete_branch envW6 iW6).trace := by
  constructor <;> decide

/-- Claim C6 (amended): in the safe delete workflow with scope "both", when
the target branch is the current branch and the operator declines to switch
to the suggested safe branch, the whole operation aborts: neither the local
nor the remote delete path issues any mutating command or log write. -/
theorem claim_C6 (env : GitEnv) (inputs : Nat → String)
    (hc : check_git_repo env = true)
    (hch : pyStrip (inputs 0) = "3")
    (hnp : PROTECTED_BRANCHES.contains (pyStrip (inputs 1)) = false)
    (hex : branch_exists_local env (pyStrip (inputs 1)) = true)
    (hcur : get_current_branch env = some (pyStrip (inputs 1)))
    (hdecl : pyLower (pyStrip (inputs 2)) ≠ "y") :
    ∀ e ∈ (delete_branch env inputs).trace,
      isMutatingEvent e = false ∧ isLogEvent e = false :=
  delete_switch_decline_abort env inputs hc (Or.inr hch) hnp hex hcur hdecl

/-- Witness for claim C6 (amended): no forced delete of `feature` is issued
after the declined switch. -/
theorem claim_C6_witness :
    Event.run ["branch", "-D", "feature"] ∉ (delete_branch envW6 iW6).trace :=
  fun hmem =>
    absurd (claim_C6 envW6 iW6 (by decide) (by decide) (by decide) (by decide)
      (by decide) (by decide) _ hmem).1 (by decide)

/-- Claim C7: every tag command issued by the backup tagger uses exactly the
name `backup/<branch>/<compact UTC timestamp>` and points at the branch; and
for a fixed timestamp (same second), distinct branch names give distinct tag
names. -/
theorem claim_C7 :
    (∀ (env : GitEnv) (b : String) (rr : Option String) (inputs : Nat → String) (n x : String),
      Event.run ["tag", n, x] ∈ (create_backup_tag env b rr ⟨inputs, 0, []⟩).2.trace →
        n = "backup/" ++ b ++ "/" ++ compactTimestamp env.now ∧ x = b) ∧
    (∀ (t : UTCTime) (b1 b2 : String), b1 ≠ b2 →
      create_backup_tag_name b1 t ≠ create_backup_tag_name b2 t) := by
  constructor
  · intro env b rr inputs n x hmem
    rcases create_backup_tag_trace_sub env b rr _ _ hmem with h | h
    · simp at h
    · simp [isBackupEvent, create_backup_tag_name] at h
      exact ⟨h.1, h.2⟩
  · intro t b1 b2 hne heq
    apply hne
    have hd := congrArg String.data heq
    simp only [create_backup_tag_name, String.data_append, List.append_assoc] at hd
    exact String.ext (List.append_cancel_right (List.append_cancel_left hd))

/-- Witness for claim C7: two branches in the same second get distinct tags. -/
theorem claim_C7_witness :
    create_backup_tag_name "feature/x" tW ≠ create_backup_tag_name "feature/y" tW :=
  claim_C7.2 tW "feature/x" "feature/y" (by decide)

/-- Claim C8: every exact-text gate succeeds iff the reply, stripped of
surrounding whitespace, is byte-exactly (case-sensitively) the expected
phrase; in particular deleting protected `main` with `delete main` or
`DELETE Main` issues no git command at all. -/
theorem claim_C8 :
    (∀ (prompt expected : String) (oracle : Nat → String) (idx : Nat) (tr : List Event),
      ((typed_confirm prompt expected ⟨oracle, idx, tr⟩).1 = true ↔
        pyStrip (oracle idx) = expected)) ∧
    (delete_branch envW1 iW1).trace.all (fun e => !isRunEvent e) = true ∧
    (delete_branch envW1 iW8).trace.all (fun e => !isRunEvent e) = true := by
  refine ⟨?_, by decide, by decide⟩
  intro prompt expected oracle idx tr
  simp

/-- Claim C9: in the promote workflow with staging and a main branch locally
present, a not-clean (or undeterminable) working tree and a declined
"proceed anyway" confirmation abort the workflow before any git command —
in particular before any checkout or pull — is issued. -/
theorem claim_C9 (env : GitEnv) (inputs : Nat → String)
    (hc : check_git_repo env = true)
    (hsl : branch_exists_local env "staging" = true)
    (hml : (branch_exists_local env "main" || branch_exists_local env "master") = true)
    (hdirty : is_working_tree_clean env = false)
    (hdecl : pyLower (pyStrip (inputs 0)) ≠ "y") :
    ∀ args, Event.run args ∉ (push_staging_to_main env inputs).trace :=
  fun args hmem =>
    (promote_dirty_decline_abort env inputs hc hsl hml hdirty hdecl _ hmem).1 args rfl

/-- Witness for claim C9: the dirty-tree decline prevents the checkout of
staging. -/
theorem claim_C9_witness :
    Event.run ["checkout", "staging"] ∉ (push_staging_to_main envW9 iW9).trace :=
  claim_C9 envW9 iW9 (by decide) (by decide) (by decide) (by decide) (by decide)
    ["checkout", "staging"]

/-- Claim C10: the low-tier yes/no gate is affirmative iff the reply, after
trimming and lowercasing, is exactly the single character `y`; in particular
`yes` declines and ` Y ` affirms. -/
theorem claim_C10 :
    (∀ (prompt : String) (oracle : Nat → String) (idx : Nat) (tr : List Event),
      ((confirm prompt ⟨oracle, idx, tr⟩).1 = true ↔
        pyLower (pyStrip (oracle idx)) = "y")) ∧
    (confirm "Proceed?" ⟨fun _ => "yes", 0, []⟩).1 = false ∧
    (confirm "Proceed?" ⟨fun _ => " Y ", 0, []⟩).1 = true := by
  refine ⟨?_, by decide, by decide⟩
  intro prompt oracle idx tr
  simp

end GitCheat
